import Mathlib

/-!
Shallow embedding of the `real_estate_crm` data model
(`src/real_estate_app/models.py`) and of the `start_bot` management command
(`src/real_estate_app/management/commands/start_bot.py`).

Django `DecimalField` values are modelled as `Rat`; nullable fields as
`Option`; primary keys and foreign keys as `Nat` identifiers.  A database
state is a record of rows per table, and the write operations (insert,
update, delete with the declared `on_delete` behaviour, validation by the
declared field validators, and the declared conditional unique constraint)
are explicit functions on that state.  Python attribute access that can
raise is modelled with `Except`.
-/

namespace RealEstate

/-- Python truthiness of an optional decimal value: `None` and `0` are falsy. -/
def truthyDec : Option Rat → Bool
  | none => false
  | some q => decide (q ≠ 0)

/-- Error raised by the storage layer when a unique constraint is violated. -/
inductive DbError where
  | uniqueViolation
deriving DecidableEq, Repr

/-- Python runtime error, as surfaced by attribute access on a model instance. -/
inductive PyErr where
  | attributeError (msg : String)
deriving DecidableEq, Repr

/-- Model `Company` (models.py lines 8-27): name, description, logo, website. -/
structure Company where
  id : Nat
  name : String
  description : String
  logo : Option String
  website : String
deriving DecidableEq, Repr

/-- Model `Contact` (models.py lines 29-52): belongs to a `Company`
(`on_delete=CASCADE`), optional one-to-one user, and an `is_primary` flag
guarded by the conditional unique constraint of `Contact.Meta`. -/
structure Contact where
  id : Nat
  company : Nat
  user : Option Nat
  first_name : String
  last_name : String
  email : String
  phone : String
  is_primary : Bool
  telegram_chat_id : String
deriving DecidableEq, Repr

/-- Model `Object` (models.py lines 54-149): a property owned by a `Company`
(`on_delete=CASCADE`), with optional latitude/longitude, a stored
`total_area` decimal, and a `floors` integer. -/
structure Object where
  id : Nat
  name : String
  description : String
  object_type : String
  status : String
  address : String
  city : String
  latitude : Option Rat
  longitude : Option Rat
  owner : Nat
  total_area : Rat
  floors : Int
  build_year : Option Int
  default_vacancy_type : String
deriving DecidableEq, Repr

/-- The `offer_type` choices of `Offer` (models.py lines 158-162). -/
inductive OfferType where
  | sale
  | lease
  | both
deriving DecidableEq, Repr

/-- The `vacancy_type` choices of `Offer` (models.py lines 152-156). -/
inductive VacancyType where
  | entire_object
  | unit
  | floor
deriving DecidableEq, Repr

/-- Model `Offer` (models.py lines 151-243): belongs to an `Object`
(`on_delete=CASCADE`), has an optional parent offer (`on_delete=CASCADE`,
self-referential), an optional `owner_company` (`on_delete=SET_NULL`) and an
optional `contact_person` (`on_delete=SET_NULL`), four zone areas, four zone
lease rates and a sale price, all decimals defaulting to 0. -/
structure Offer where
  id : Nat
  object : Nat
  parent_offer : Option Nat
  vacancy_type : VacancyType
  offer_type : OfferType
  available_from : Nat
  is_available : Bool
  owner_company : Option Nat
  contact_person : Option Nat
  whs_area : Rat
  mez_area : Rat
  office_area : Rat
  tech_area : Rat
  whs_lease_price : Rat
  mez_lease_price : Rat
  office_lease_price : Rat
  tech_lease_price : Rat
  sale_price : Rat
  height : Rat
  column_grid : String
  floor_load : Rat
  docks_amount : Int
  ramp : Bool
  racks : Bool
  multitemp : Bool
  title : String
  description : String
deriving DecidableEq, Repr

/-- Model `ObjectImage` (models.py lines 245-267): belongs to an `Object`
(`on_delete=CASCADE`), with image path, caption and display order. -/
structure ObjectImage where
  id : Nat
  object : Nat
  image : String
  caption : String
  order : Int
deriving DecidableEq, Repr

/-- Model `Agent` (models.py lines 269-280): belongs to a `Company`
(`on_delete=CASCADE`) and a user. -/
structure Agent where
  id : Nat
  user : Nat
  company : Nat
  telegram_id : String
  is_active : Bool
deriving DecidableEq, Repr

/-- A database state: one list of rows per table. -/
structure DB where
  companies : List Company
  contacts : List Contact
  objects : List Object
  offers : List Offer
  images : List ObjectImage
  agents : List Agent
deriving DecidableEq, Repr

/-- The empty database, the initial state of a fresh deployment. -/
def DB.empty : DB :=
  { companies := [], contacts := [], objects := [], offers := [],
    images := [], agents := [] }

/-- Property `Offer.total_area` (models.py lines 226-228): recomputed on
read as the sum of the four zone areas; it is not a stored column. -/
def Offer.total_area (o : Offer) : Rat :=
  o.whs_area + o.mez_area + o.office_area + o.tech_area

/-- An admin edit of the four zone-area fields of an `Offer`; every other
field is kept.  `total_area` is not (and cannot be) written by an update,
since it is not a column. -/
def Offer.updateAreas (o : Offer) (w m f t : Rat) : Offer :=
  { o with whs_area := w, mez_area := m, office_area := f, tech_area := t }

/-- Attribute access `self.lease_price_per_sqm` on an `Offer` instance.
No field, property or method of that name is defined anywhere in the
repository (the `Offer` model has the four per-zone rates
`whs_lease_price` .. `tech_lease_price` instead), so in Python this access
raises `AttributeError`. -/
def Offer.lease_price_per_sqm (_ : Offer) : Except PyErr Rat :=
  Except.error (PyErr.attributeError
    "Offer object has no attribute lease_price_per_sqm")

/-- Insert a comma every three digits, counting from the right; the input
is the digit list of the integer part reversed (least significant first). -/
def groupRev : List Char → List Char
  | a :: b :: c :: d :: rest => a :: b :: c :: (',' : Char) :: groupRev (d :: rest)
  | l => l

/-- Python format `f"{q:,.2f}"` for a decimal with at most two fractional
digits: thousands separated by commas, exactly two digits after the point. -/
def moneyFormat (q : Rat) : String :=
  let sign := if q < 0 then "-" else ""
  let cents : Nat := q.num.natAbs * 100 / q.den
  let whole := cents / 100
  let frac := cents % 100
  sign ++ String.mk (groupRev (toString whole).toList.reverse).reverse
    ++ "." ++ (if frac < 10 then "0" else "") ++ toString frac

/-- Python `str` of a decimal stored with two decimal places. -/
def decimal2 (q : Rat) : String :=
  let sign := if q < 0 then "-" else ""
  let cents : Nat := q.num.natAbs * 100 / q.den
  sign ++ toString (cents / 100) ++ "."
    ++ (if cents % 100 < 10 then "0" else "") ++ toString (cents % 100)

/-- Python `str` of a decimal stored with six decimal places, as the
latitude/longitude columns are (`decimal_places=6`). -/
def decimal6 (q : Rat) : String :=
  let sign := if q < 0 then "-" else ""
  let micro : Nat := q.num.natAbs * 1000000 / q.den
  let fracStr := toString (micro % 1000000)
  sign ++ toString (micro / 1000000) ++ "."
    ++ String.mk (List.replicate (6 - fracStr.length) ('0' : Char)) ++ fracStr

/-- Property `Offer.price_display` (models.py lines 230-243), translated
branch by branch.  The `lease` branch and the `both` branch read
`self.lease_price_per_sqm`, which raises `AttributeError`; the `sale`
branches return before that attribute is touched. -/
def Offer.price_display (o : Offer) : Except PyErr String := do
  if o.offer_type = OfferType.sale ∧ o.sale_price ≠ 0 then
    return "$" ++ moneyFormat o.sale_price
  let leaseVal ← if o.offer_type = OfferType.lease
    then o.lease_price_per_sqm else pure 0
  if o.offer_type = OfferType.lease ∧ leaseVal ≠ 0 then
    return "$" ++ decimal2 leaseVal ++ "/m²"
  if o.offer_type = OfferType.both then
    let prices₁ := if o.sale_price ≠ 0
      then ["Sale: $" ++ moneyFormat o.sale_price] else []
    let leaseVal₂ ← o.lease_price_per_sqm
    let prices₂ := prices₁ ++ (if leaseVal₂ ≠ 0
      then ["Lease: $" ++ decimal2 leaseVal₂ ++ "/m²"] else [])
    return String.intercalate " | " prices₂
  return "Price not set"

/-- Property `Object.coordinates` (models.py lines 145-149):
`if self.latitude and self.longitude` uses Python truthiness, so a missing
or exactly-zero coordinate selects the `"Not set"` branch. -/
def Object.coordinates (o : Object) : String :=
  if truthyDec o.latitude ∧ truthyDec o.longitude then
    decimal6 (o.latitude.getD 0) ++ ", " ++ decimal6 (o.longitude.getD 0)
  else "Not set"

/-- The validators declared on `Object` fields (models.py lines 97-116):
`MinValueValidator(-90)`/`MaxValueValidator(90)` on the nullable latitude,
`MinValueValidator(-180)`/`MaxValueValidator(180)` on the nullable
longitude, and `MinValueValidator(1)` on `floors`.  No validator is
declared on any other field of `Object`; in particular `total_area` has
none. -/
def Object.validate (o : Object) : Bool :=
  (match o.latitude with
    | none => true
    | some v => decide (-90 ≤ v) && decide (v ≤ 90)) &&
  (match o.longitude with
    | none => true
    | some v => decide (-180 ≤ v) && decide (v ≤ 180)) &&
  decide (1 ≤ o.floors)

/-- True when the row's `parent_offer` points into the set `S` of offer ids
already collected for deletion. -/
def parentIn (S : List Nat) (o : Offer) : Bool :=
  match o.parent_offer with
  | some p => decide (p ∈ S)
  | none => false

/-- One round of Django's delete collector on the self-referential
`Offer.parent_offer` foreign key (`on_delete=CASCADE`): every offer whose
parent is already collected is collected as well. -/
def closureStep (offers : List Offer) (S : List Nat) : List Nat :=
  S ++ (offers.filter (parentIn S)).map Offer.id

/-- The full set of offer ids deleted when the ids in `seed` are deleted:
the cascade along `parent_offer` closes in at most `offers.length` rounds,
since each productive round collects at least one new row. -/
def offerDeleteSet (offers : List Offer) (seed : List Nat) : List Nat :=
  (closureStep offers)^[offers.length] seed

/-- Delete a single `Offer` row.  The self-referential `parent_offer`
foreign key has `on_delete=CASCADE`, so all child offers (transitively)
are deleted with it; no other table references `Offer`. -/
def deleteOffer (db : DB) (oid : Nat) : DB :=
  let dead := offerDeleteSet db.offers [oid]
  { db with offers := db.offers.filter (fun o => decide (¬ o.id ∈ dead)) }

/-- Delete an `Object` row.  `Offer.object` and `ObjectImage.object` both
declare `on_delete=CASCADE`, so the object's offers (together with their
child offers) and its images are deleted with it. -/
def deleteObject (db : DB) (objId : Nat) : DB :=
  let seed := (db.offers.filter (fun o => decide (o.object = objId))).map Offer.id
  let dead := offerDeleteSet db.offers seed
  { db with
    objects := db.objects.filter (fun ob => decide (¬ ob.id = objId))
    offers := db.offers.filter (fun o => decide (¬ o.id ∈ dead))
    images := db.images.filter (fun im => decide (¬ im.object = objId)) }

/-- Set a surviving offer's nullable references straight after a company
deletion: `Offer.owner_company` has `on_delete=SET_NULL` for the deleted
company and `Offer.contact_person` has `on_delete=SET_NULL` for the
cascade-deleted contacts. -/
def scrubOffer (cid : Nat) (deadContacts : List Nat) (o : Offer) : Offer :=
  let o₁ := if o.owner_company = some cid
    then { o with owner_company := none } else o
  match o₁.contact_person with
  | some ct => if ct ∈ deadContacts
      then { o₁ with contact_person := none } else o₁
  | none => o₁

/-- Delete a `Company` row.  `Contact.company`, `Object.owner` and
`Agent.company` all declare `on_delete=CASCADE`; the deleted objects
cascade further into offers and images; `Offer.owner_company` declares
`on_delete=SET_NULL`, and deleting a referenced contact sets
`Offer.contact_person` to null. -/
def deleteCompany (db : DB) (cid : Nat) : DB :=
  let deadContacts := (db.contacts.filter (fun c => decide (c.company = cid))).map Contact.id
  let deadObjects := (db.objects.filter (fun ob => decide (ob.owner = cid))).map Object.id
  let seed := (db.offers.filter (fun o => decide (o.object ∈ deadObjects))).map Offer.id
  let dead := offerDeleteSet db.offers seed
  { companies := db.companies.filter (fun co => decide (¬ co.id = cid))
    contacts := db.contacts.filter (fun c => decide (¬ c.company = cid))
    objects := db.objects.filter (fun ob => decide (¬ ob.owner = cid))
    offers := ((db.offers.filter (fun o => decide (¬ o.id ∈ dead))).map (scrubOffer cid deadContacts))
    images := db.images.filter (fun im => decide (¬ im.object ∈ deadObjects))
    agents := db.agents.filter (fun a => decide (¬ a.company = cid)) }

/-- Delete a `Contact` row.  The only reference to `Contact` from another
table is `Offer.contact_person` with `on_delete=SET_NULL`: offers keep all
their other fields and survive with the reference cleared. -/
def deleteContact (db : DB) (ctid : Nat) : DB :=
  { db with
    contacts := db.contacts.filter (fun c => decide (¬ c.id = ctid))
    offers := db.offers.map (fun o =>
      if o.contact_person = some ctid
      then { o with contact_person := none } else o) }

/-- Insert a `Contact` row.  The storage layer enforces primary-key
uniqueness and the declared conditional unique constraint
`unique_primary_contact` (models.py lines 42-48): a partial unique index on
`(company, is_primary)` restricted to rows with `is_primary = True`, hence
at most one primary contact per company.  A violating write is rejected and
the state is unchanged. -/
def insertContact (db : DB) (c : Contact) : Except DbError DB :=
  if db.contacts.any (fun x => decide (x.id = c.id)) then
    Except.error DbError.uniqueViolation
  else if c.is_primary && db.contacts.any
      (fun x => decide (x.company = c.company) && x.is_primary) then
    Except.error DbError.uniqueViolation
  else
    Except.ok { db with contacts := db.contacts ++ [c] }

/-- Update the `Contact` row whose id matches `c.id` to the new values `c`.
The partial unique index `unique_primary_contact` is checked against every
other row on update just as on insert: marking a contact primary while a
different contact of the same company is already primary is rejected by the
storage layer and the state is unchanged. -/
def updateContact (db : DB) (c : Contact) : Except DbError DB :=
  if c.is_primary && db.contacts.any (fun x =>
      decide (¬ x.id = c.id) && decide (x.company = c.company) && x.is_primary) then
    Except.error DbError.uniqueViolation
  else
    Except.ok { db with
      contacts := db.contacts.map (fun x => if x.id = c.id then c else x) }

/-- At most one contact row flagged primary exists per company: no two
distinct rows of the list agree on `company` while both are primary. -/
def atMostOnePrimary (l : List Contact) : Prop :=
  l.Pairwise (fun a b =>
    ¬ (a.company = b.company ∧ a.is_primary = true ∧ b.is_primary = true))

/-- Primary keys are unique, as the storage layer guarantees. -/
def contactIdsNodup (l : List Contact) : Prop :=
  (l.map Contact.id).Nodup

/-- The database states reachable through the modelled write operations,
starting from the empty database: constraint-checked contact inserts and
updates, and the four delete operations. -/
inductive Reach : DB → Prop where
  | empty : Reach DB.empty
  | insert {db db' : DB} {c : Contact} :
      Reach db → insertContact db c = Except.ok db' → Reach db'
  | update {db db' : DB} {c : Contact} :
      Reach db → updateContact db c = Except.ok db' → Reach db'
  | delCompany {db : DB} (cid : Nat) : Reach db → Reach (deleteCompany db cid)
  | delContact {db : DB} (ctid : Nat) : Reach db → Reach (deleteContact db ctid)
  | delObject {db : DB} (oid : Nat) : Reach db → Reach (deleteObject db oid)
  | delOffer {db : DB} (oid : Nat) : Reach db → Reach (deleteOffer db oid)

/-- `Command.handle` of the `start_bot` management command
(start_bot.py lines 6-8): it writes one success-styled line to stdout and
does nothing else; the database state is untouched. -/
def startBotHandle (_args : List String) (db : DB) : DB × List String :=
  (db, ["Starting Telegram bot..."])

theorem mem_closureStep_of_mem {offers : List Offer} {S : List Nat} {a : Nat}
    (h : a ∈ S) : a ∈ closureStep offers S :=
  List.mem_append_left _ h

theorem mem_iterate_of_mem {offers : List Offer} {a : Nat} (n : Nat)
    {S : List Nat} (h : a ∈ S) : a ∈ (closureStep offers)^[n] S := by
  induction n generalizing S with
  | zero => simpa using h
  | succ n ih =>
      rw [Function.iterate_succ_apply]
      exact ih (mem_closureStep_of_mem h)

theorem mem_offerDeleteSet_of_mem {offers : List Offer} {S : List Nat}
    {a : Nat} (h : a ∈ S) : a ∈ offerDeleteSet offers S :=
  mem_iterate_of_mem _ h

theorem child_mem_closureStep {offers : List Offer} {S : List Nat}
    {c : Offer} {p : Nat} (hc : c ∈ offers) (hp : c.parent_offer = some p)
    (hs : p ∈ S) : c.id ∈ closureStep offers S := by
  apply List.mem_append_right
  exact List.mem_map_of_mem _ (List.mem_filter.mpr ⟨hc, by simp [parentIn, hp, hs]⟩)

theorem child_mem_offerDeleteSet {offers : List Offer} {S : List Nat}
    {c : Offer} {p : Nat} (hc : c ∈ offers) (hp : c.parent_offer = some p)
    (hs : p ∈ S) : c.id ∈ offerDeleteSet offers S := by
  have hlen : offers.length ≠ 0 := by
    intro h0
    rw [List.length_eq_zero] at h0
    simp [h0] at hc
  obtain ⟨n, hn⟩ := Nat.exists_eq_succ_of_ne_zero hlen
  unfold offerDeleteSet
  rw [hn, Function.iterate_succ_apply]
  exact mem_iterate_of_mem n (child_mem_closureStep hc hp hs)

theorem atMostOnePrimary_filter (p : Contact → Bool) {l : List Contact}
    (h : atMostOnePrimary l) : atMostOnePrimary (l.filter p) :=
  List.Pairwise.sublist (List.filter_sublist l) h

theorem contactIdsNodup_filter (p : Contact → Bool) {l : List Contact}
    (h : contactIdsNodup l) : contactIdsNodup (l.filter p) :=
  List.Nodup.sublist (List.Sublist.map Contact.id (List.filter_sublist l)) h

theorem update_map_ids (l : List Contact) (c : Contact) :
    (l.map (fun x => if x.id = c.id then c else x)).map Contact.id
      = l.map Contact.id := by
  rw [List.map_map]
  apply List.map_congr_left
  intro x _
  by_cases h : x.id = c.id <;> simp [Function.comp, h]

theorem atMostOnePrimary_update {l : List Contact} {c : Contact}
    (hp : atMostOnePrimary l) (hn : contactIdsNodup l)
    (hc : c.is_primary = true → ∀ x ∈ l, ¬ x.id = c.id →
      ¬ (x.company = c.company ∧ x.is_primary = true)) :
    atMostOnePrimary (l.map (fun x => if x.id = c.id then c else x)) := by
  induction l with
  | nil => simp [atMostOnePrimary]
  | cons a t ih =>
      rw [atMostOnePrimary, List.map_cons, List.pairwise_cons]
      rw [atMostOnePrimary, List.pairwise_cons] at hp
      rw [contactIdsNodup, List.map_cons, List.nodup_cons] at hn
      refine ⟨?_, ih hp.2 hn.2 (fun hcp x hx hxid => hc hcp x (List.mem_cons_of_mem a hx) hxid)⟩
      intro b hb
      obtain ⟨x, hx, rfl⟩ := List.mem_map.mp hb
      have hxid : ¬ x.id = a.id := by
        intro he
        exact hn.1 (he ▸ List.mem_map_of_mem Contact.id hx)
      by_cases ha : a.id = c.id
      · rw [if_pos ha]
        have hxc : ¬ x.id = c.id := fun he => hxid (he.trans ha.symm)
        rw [if_neg hxc]
        rintro ⟨hco, hcp, hxp⟩
        exact hc hcp x (List.mem_cons_of_mem a hx) hxc ⟨hco.symm, hxp⟩
      · rw [if_neg ha]
        by_cases hxc : x.id = c.id
        · rw [if_pos hxc]
          rintro ⟨hco, hap, hcp⟩
          exact hc hcp a (List.mem_cons_self a t) ha ⟨hco, hap⟩
        · rw [if_neg hxc]
          exact hp.1 x hx

theorem reach_contactsInv {db : DB} (h : Reach db) :
    atMostOnePrimary db.contacts ∧ contactIdsNodup db.contacts := by
  induction h with
  | empty =>
      constructor <;> simp [DB.empty, atMostOnePrimary, contactIdsNodup]
  | insert hr hok ih =>
      rename_i db db' c
      unfold insertContact at hok
      by_cases h1 : db.contacts.any (fun x => decide (x.id = c.id))
      · rw [if_pos h1] at hok
        exact absurd hok (by simp)
      · rw [if_neg h1] at hok
        by_cases h2 : (c.is_primary && db.contacts.any
            (fun x => decide (x.company = c.company) && x.is_primary)) = true
        · rw [if_pos h2] at hok
          exact absurd hok (by simp)
        · rw [if_neg h2] at hok
          have hdb : db' = { db with contacts := db.contacts ++ [c] } :=
            (Except.ok.injEq _ _).mp hok.symm
          subst hdb
          constructor
          · rw [atMostOnePrimary, List.pairwise_append]
            refine ⟨ih.1, List.pairwise_singleton _ _, ?_⟩
            intro x hx b hb
            rw [List.mem_singleton] at hb
            subst hb
            rintro ⟨hco, hxp, hcp⟩
            apply h2
            rw [Bool.and_eq_true, List.any_eq_true]
            exact ⟨hcp, x, hx, by simp [hco, hxp]⟩
          · rw [contactIdsNodup, List.map_append, List.nodup_append]
            refine ⟨ih.2, List.nodup_singleton _, ?_⟩
            intro i hi hic
            rw [List.map_singleton, List.mem_singleton] at hic
            obtain ⟨x, hx, rfl⟩ := List.mem_map.mp hi
            apply h1
            rw [List.any_eq_true]
            exact ⟨x, hx, by simp [hic]⟩
  | update hr hok ih =>
      rename_i db db' c
      unfold updateContact at hok
      by_cases h1 : (c.is_primary && db.contacts.any (fun x =>
          decide (¬ x.id = c.id) && decide (x.company = c.company) && x.is_primary)) = true
      · rw [if_pos h1] at hok
        exact absurd hok (by simp)
      · rw [if_neg h1] at hok
        have hdb : db' = { db with contacts := db.contacts.map (fun x => if x.id = c.id then c else x) } :=
          (Except.ok.injEq _ _).mp hok.symm
        subst hdb
        have hc : c.is_primary = true → ∀ x ∈ db.contacts, ¬ x.id = c.id →
            ¬ (x.company = c.company ∧ x.is_primary = true) := by
          rintro hcp x hx hxid ⟨hco, hxp⟩
          apply h1
          rw [Bool.and_eq_true, List.any_eq_true]
          exact ⟨hcp, x, hx, by simp [hxid, hco, hxp]⟩
        refine ⟨atMostOnePrimary_update ih.1 ih.2 hc, ?_⟩
        show contactIdsNodup _
        rw [contactIdsNodup, update_map_ids]
        exact ih.2
  | delCompany cid hr ih =>
      exact ⟨atMostOnePrimary_filter _ ih.1, contactIdsNodup_filter _ ih.2⟩
  | delContact ctid hr ih =>
      exact ⟨atMostOnePrimary_filter _ ih.1, contactIdsNodup_filter _ ih.2⟩
  | delObject oid hr ih => exact ih
  | delOffer oid hr ih => exact ih

/-- An offer row carrying exactly the field defaults declared on the model
(`default=0` areas and rates, `offer_type` defaulting to lease, height 12,
column grid 12x24, floor load 6). -/
def baseOffer : Offer :=
  { id := 1, object := 1, parent_offer := none,
    vacancy_type := VacancyType.unit, offer_type := OfferType.lease,
    available_from := 0, is_available := true, owner_company := none,
    contact_person := none, whs_area := 0, mez_area := 0, office_area := 0,
    tech_area := 0, whs_lease_price := 0, mez_lease_price := 0,
    office_lease_price := 0, tech_lease_price := 0, sale_price := 0,
    height := 12, column_grid := "12x24", floor_load := 6,
    docks_amount := 0, ramp := false, racks := false, multitemp := false,
    title := "", description := "" }

def offerBothExample : Offer :=
  { baseOffer with offer_type := OfferType.both, sale_price := 500000 }

def offerLeaseExample : Offer :=
  { baseOffer with offer_type := OfferType.lease, whs_lease_price := 120 }

def offerSaleExample : Offer :=
  { baseOffer with offer_type := OfferType.sale, sale_price := 500000 }

def offerSaleUnset : Offer :=
  { baseOffer with offer_type := OfferType.sale }

def companyOne : Company :=
  { id := 1, name := "Acme", description := "", logo := none, website := "" }

def companyTwo : Company :=
  { id := 2, name := "Globex", description := "", logo := none, website := "" }

def contactA : Contact :=
  { id := 1, company := 1, user := none, first_name := "Anna",
    last_name := "Ivanova", email := "anna@acme.test", phone := "",
    is_primary := true, telegram_chat_id := "" }

def contactB : Contact :=
  { contactA with id := 2, first_name := "Boris" }

def contactOther : Contact :=
  { contactA with id := 3, company := 2, is_primary := false }

def dbOnePrimary : DB :=
  { DB.empty with companies := [companyOne], contacts := [contactA] }

def objectOne : Object :=
  { id := 1, name := "Warehouse A", description := "",
    object_type := "warehouse", status := "active", address := "Lenina 1",
    city := "Moskva", latitude := none, longitude := none, owner := 1,
    total_area := 1000, floors := 1, build_year := none,
    default_vacancy_type := "unit" }

def objectOther : Object :=
  { objectOne with id := 2, owner := 2 }

def objectFloors0 : Object := { objectOne with floors := 0 }

def objectFloors3 : Object := { objectOne with floors := 3 }

def objectBadLat : Object := { objectOne with latitude := some 91 }

def objectBadLon : Object := { objectOne with longitude := some 181 }

def objectZeroArea : Object := { objectOne with total_area := 0 }

def objectWithCoords : Object :=
  { objectOne with latitude := some (55.75 : Rat), longitude := some (37.61 : Rat) }

def objectOnEquator : Object :=
  { objectOne with latitude := some 0, longitude := some (37.61 : Rat) }

def offerParent : Offer := { baseOffer with id := 10, object := 1 }

def offerChild : Offer :=
  { baseOffer with id := 11, object := 1, parent_offer := some 10 }

def imageOne : ObjectImage :=
  { id := 1, object := 1, image := "object_images/a.jpg", caption := "", order := 0 }

def dbSample : DB :=
  { DB.empty with
    companies := [companyOne], objects := [objectOne],
    offers := [offerParent, offerChild], images := [imageOne] }

def offerWithContact : Offer :=
  { baseOffer with id := 12, contact_person := some 1 }

def dbContact : DB :=
  { DB.empty with
    companies := [companyOne], contacts := [contactA],
    offers := [offerWithContact] }

def dbTwoCompanies : DB :=
  { companies := [companyOne, companyTwo], contacts := [contactA, contactOther],
    objects := [objectOne, objectOther], offers := [], images := [], agents := [] }

/-- Claim C1: for every Offer, `total_area` equals the arithmetic sum of its
`whs_area`, `mez_area`, `office_area` and `tech_area` fields, also after any
update of those fields; it is recomputed on read, not stored, so it cannot
drift from the four inputs. -/
theorem offer_total_area_recomputed (o : Offer) (w m f t : Rat) :
    o.total_area = o.whs_area + o.mez_area + o.office_area + o.tech_area ∧
    (o.updateAreas w m f t).total_area = w + m + f + t :=
  ⟨rfl, rfl⟩

/-- Claim C3 (code evaluated at the failing inputs): `price_display` renders
the sale price for a sale offer and "Price not set" for a sale offer with no
sale price, but for `offer_type = lease` and for `offer_type = both` it
reads the nonexistent attribute `lease_price_per_sqm` and raises
`AttributeError` instead of rendering the rate or the concatenation the
claim describes. -/
theorem price_display_attribute_error :
    Offer.price_display offerBothExample
      = Except.error (PyErr.attributeError
          "Offer object has no attribute lease_price_per_sqm") ∧
    Offer.price_display offerLeaseExample
      = Except.error (PyErr.attributeError
          "Offer object has no attribute lease_price_per_sqm") ∧
    Offer.price_display offerSaleExample = Except.ok "$500,000.00" ∧
    Offer.price_display offerSaleUnset = Except.ok "Price not set" :=
  ⟨rfl, rfl, rfl, rfl⟩

/-- Claim C8, counterexample: an Object whose `total_area` is zero passes
validation, because no validator at all is declared on `Object.total_area`;
the claimed rejection of non-positive areas does not exist in the code. -/
theorem object_zero_area_accepted :
    Object.validate objectZeroArea = true ∧ ¬ (0 < objectZeroArea.total_area) :=
  ⟨rfl, by decide⟩

/-- Claim C8, amended: validation of an Object is entirely independent of
its `total_area` value; a zero or negative area is accepted because the
field declares no validator. -/
theorem object_validate_ignores_total_area (o : Object) (v : Rat) :
    Object.validate { o with total_area := v } = Object.validate o :=
  rfl

/-- Claim C9: the `start_bot` command only writes the startup announcement
line and performs no other action; the database state is returned
unchanged for every invocation. -/
theorem start_bot_announces_only (args : List String) (db : DB) :
    startBotHandle args db = (db, ["Starting Telegram bot..."]) :=
  rfl

/-- Claim C2: in every reachable database state a company has at most one
primary contact, and an insert or an update that would flag a second
contact of the same company as primary while another primary exists is
rejected by the conditional unique constraint, leaving the state
unchanged (the write returns an error instead of a new state). -/
theorem contact_primary_unique :
    (∀ db : DB, Reach db → atMostOnePrimary db.contacts) ∧
    (∀ (db : DB) (c : Contact), c.is_primary = true →
      (∃ x ∈ db.contacts, ¬ x.id = c.id ∧ x.company = c.company ∧ x.is_primary = true) →
      insertContact db c = Except.error DbError.uniqueViolation ∧
      updateContact db c = Except.error DbError.uniqueViolation) := by
  constructor
  · intro db h
    exact (reach_contactsInv h).1
  · rintro db c hcp ⟨x, hx, hxid, hco, hxp⟩
    constructor
    · have hcond : (db.contacts.any fun y =>
          decide (y.company = c.company) && y.is_primary) = true := by
        rw [List.any_eq_true]
        exact ⟨x, hx, by simp [hco, hxp]⟩
      unfold insertContact
      by_cases h1 : (db.contacts.any fun y => decide (y.id = c.id)) = true
      · simp [h1]
      · simp [h1, hcp, hcond]
    · have hcond : (db.contacts.any fun y =>
          decide (¬ y.id = c.id) && decide (y.company = c.company) && y.is_primary) = true := by
        rw [List.any_eq_true]
        exact ⟨x, hx, by simp [hxid, hco, hxp]⟩
      unfold updateContact
      simp only [hcp, hcond, Bool.and_true, Bool.true_and, if_pos]

/-- Witness for claim C2: the empty state is reachable and satisfies the
invariant, and in a concrete state holding one primary contact of company 1
both the insert and the update that would make contact 2 a second primary
of company 1 are rejected. -/
theorem contact_primary_unique_witness :
    atMostOnePrimary DB.empty.contacts ∧
    insertContact dbOnePrimary contactB = Except.error DbError.uniqueViolation ∧
    updateContact dbOnePrimary contactB = Except.error DbError.uniqueViolation := by
  refine ⟨contact_primary_unique.1 DB.empty Reach.empty, ?_⟩
  have h := contact_primary_unique.2 dbOnePrimary contactB rfl
    ⟨contactA, by simp [dbOnePrimary, DB.empty], by decide, by decide, by decide⟩
  exact h

/-- Claim C4: deleting a Company removes exactly its Contacts and exactly
its owned Objects: a contact row survives the deletion if and only if it
belongs to a different company, and likewise for objects and their owner. -/
theorem delete_company_cascades (db : DB) (cid : Nat) :
    (∀ ct : Contact,
      ct ∈ (deleteCompany db cid).contacts ↔ ct ∈ db.contacts ∧ ¬ ct.company = cid) ∧
    (∀ ob : Object,
      ob ∈ (deleteCompany db cid).objects ↔ ob ∈ db.objects ∧ ¬ ob.owner = cid) := by
  constructor
  · intro ct
    simp [deleteCompany, List.mem_filter]
  · intro ob
    simp [deleteCompany, List.mem_filter]

/-- Witness for claim C4: in a concrete two-company state, deleting company
1 removes its contact and its object while the contact and the object of
company 2 survive. -/
theorem delete_company_cascades_witness :
    ¬ contactA ∈ (deleteCompany dbTwoCompanies 1).contacts ∧
    contactOther ∈ (deleteCompany dbTwoCompanies 1).contacts ∧
    ¬ objectOne ∈ (deleteCompany dbTwoCompanies 1).objects ∧
    objectOther ∈ (deleteCompany dbTwoCompanies 1).objects := by
  refine ⟨?_, ?_, ?_, ?_⟩
  · intro h
    exact (((delete_company_cascades dbTwoCompanies 1).1 contactA).mp h).2 (by decide)
  · exact ((delete_company_cascades dbTwoCompanies 1).1 contactOther).mpr
      ⟨by simp [dbTwoCompanies], by decide⟩
  · intro h
    exact (((delete_company_cascades dbTwoCompanies 1).2 objectOne).mp h).2 (by decide)
  · exact ((delete_company_cascades dbTwoCompanies 1).2 objectOther).mpr
      ⟨by simp [dbTwoCompanies], by decide⟩

/-- Claim C5: deleting an Object removes all of its Offers and all of its
ObjectImages, and deleting a parent Offer cascade-deletes every child
offer pointing at it through `parent_offer`. -/
theorem delete_object_offer_cascade (db : DB) (objId pid : Nat) :
    (∀ off : Offer, off.object = objId → ¬ off ∈ (deleteObject db objId).offers) ∧
    (∀ im : ObjectImage, im.object = objId → ¬ im ∈ (deleteObject db objId).images) ∧
    (∀ c : Offer, c.parent_offer = some pid → ¬ c ∈ (deleteOffer db pid).offers) := by
  refine ⟨?_, ?_, ?_⟩
  · intro off hobj hmem
    simp only [deleteObject, List.mem_filter, decide_eq_true_eq] at hmem
    exact hmem.2 (mem_offerDeleteSet_of_mem
      (List.mem_map_of_mem Offer.id (List.mem_filter.mpr ⟨hmem.1, by simp [hobj]⟩)))
  · intro im hobj hmem
    simp only [deleteObject, List.mem_filter, decide_eq_true_eq] at hmem
    exact hmem.2 hobj
  · intro c hp hmem
    simp only [deleteOffer, List.mem_filter, decide_eq_true_eq] at hmem
    exact hmem.2 (child_mem_offerDeleteSet hmem.1 hp (List.mem_singleton.mpr rfl))

/-- Witness for claim C5: in a concrete state, deleting object 1 removes
its offer and its image, and deleting parent offer 10 removes child offer
11. -/
theorem delete_object_offer_cascade_witness :
    ¬ offerParent ∈ (deleteObject dbSample 1).offers ∧
    ¬ imageOne ∈ (deleteObject dbSample 1).images ∧
    ¬ offerChild ∈ (deleteOffer dbSample 10).offers :=
  ⟨(delete_object_offer_cascade dbSample 1 10).1 offerParent rfl,
   (delete_object_offer_cascade dbSample 1 10).2.1 imageOne rfl,
   (delete_object_offer_cascade dbSample 1 10).2.2 offerChild rfl⟩

/-- Claim C6: deleting a Contact referenced by an Offer sets the offer's
`contact_person` to null while every other field of the offer is unchanged
and the offer row survives; the offers table keeps its length. -/
theorem delete_contact_nulls_offer_reference (db : DB) (ctid : Nat) :
    (deleteContact db ctid).offers.length = db.offers.length ∧
    (∀ off : Offer, off ∈ db.offers → off.contact_person = some ctid →
      { off with contact_person := none } ∈ (deleteContact db ctid).offers) := by
  constructor
  · simp [deleteContact]
  · intro off hmem hcp
    simp only [deleteContact]
    refine List.mem_map.mpr ⟨off, hmem, ?_⟩
    simp [hcp]

/-- Witness for claim C6: deleting contact 1 from a concrete state keeps
the single offer and clears only its `contact_person` reference. -/
theorem delete_contact_nulls_offer_reference_witness :
    (deleteContact dbContact 1).offers.length = dbContact.offers.length ∧
    { offerWithContact with contact_person := none } ∈ (deleteContact dbContact 1).offers :=
  ⟨(delete_contact_nulls_offer_reference dbContact 1).1,
   (delete_contact_nulls_offer_reference dbContact 1).2 offerWithContact
     (by simp [dbContact, DB.empty]) rfl⟩

/-- Claim C7: the declared validators reject a latitude outside [-90, 90],
a longitude outside [-180, 180] (when present) and floors below 1; the
concrete object with `floors = 0` is rejected and with `floors = 3` is
accepted. -/
theorem object_validation_bounds (o : Object) :
    (∀ v : Rat, o.latitude = some v → (v < -90 ∨ 90 < v) →
      Object.validate o = false) ∧
    (∀ v : Rat, o.longitude = some v → (v < -180 ∨ 180 < v) →
      Object.validate o = false) ∧
    (o.floors < 1 → Object.validate o = false) ∧
    Object.validate objectFloors0 = false ∧
    Object.validate objectFloors3 = true := by
  refine ⟨?_, ?_, ?_, rfl, rfl⟩
  · intro v hlat hout
    rcases hout with h | h
    · simp [Object.validate, hlat, decide_eq_false (not_le.mpr h)]
    · simp [Object.validate, hlat, decide_eq_false (not_le.mpr h)]
  · intro v hlon hout
    rcases hout with h | h
    · simp [Object.validate, hlon, decide_eq_false (not_le.mpr h)]
    · simp [Object.validate, hlon, decide_eq_false (not_le.mpr h)]
  · intro h
    simp [Object.validate, decide_eq_false (not_le.mpr h)]

/-- Witness for claim C7: a latitude of 91, a longitude of 181 and a floors
value of 0 are each rejected on concrete objects. -/
theorem object_validation_bounds_witness :
    Object.validate objectBadLat = false ∧
    Object.validate objectBadLon = false ∧
    Object.validate objectFloors0 = false :=
  ⟨(object_validation_bounds objectBadLat).1 91 rfl (Or.inr (by norm_num)),
   (object_validation_bounds objectBadLon).2.1 181 rfl (Or.inr (by norm_num)),
   (object_validation_bounds objectFloors0).2.2.1 (by decide)⟩

/-- Claim C10: `coordinates` renders the "latitude, longitude" string only
when both coordinates are present and nonzero, and renders "Not set"
whenever either coordinate is null or exactly zero, so a valid zero
coordinate (equator or prime meridian) displays as "Not set". -/
theorem object_coordinates_display (o : Object) :
    (∀ la lo : Rat, o.latitude = some la → o.longitude = some lo →
      la ≠ 0 → lo ≠ 0 →
      o.coordinates = decimal6 la ++ ", " ++ decimal6 lo) ∧
    ((o.latitude = none ∨ o.latitude = some 0 ∨
        o.longitude = none ∨ o.longitude = some 0) →
      o.coordinates = "Not set") := by
  constructor
  · intro la lo hla hlo hla0 hlo0
    simp [Object.coordinates, hla, hlo, truthyDec, hla0, hlo0]
  · intro h
    rcases h with h | h | h | h
    · simp [Object.coordinates, truthyDec, h]
    · simp [Object.coordinates, truthyDec, h]
    · cases htr : truthyDec o.latitude
      · simp [Object.coordinates, htr]
      · simp [Object.coordinates, truthyDec, h, htr]
    · cases htr : truthyDec o.latitude
      · simp [Object.coordinates, htr]
      · simp [Object.coordinates, truthyDec, h, htr]

/-- Witness for claim C10: a concrete object at (55.75, 37.61) renders its
coordinate pair, while a concrete object on the equator (latitude exactly
0) renders "Not set". -/
theorem object_coordinates_display_witness :
    objectWithCoords.coordinates
      = decimal6 (55.75 : Rat) ++ ", " ++ decimal6 (37.61 : Rat) ∧
    objectOnEquator.coordinates = "Not set" :=
  ⟨(object_coordinates_display objectWithCoords).1 (55.75 : Rat) (37.61 : Rat)
     rfl rfl (by norm_num) (by norm_num),
   (object_coordinates_display objectOnEquator).2 (Or.inr (Or.inl rfl))⟩

end RealEstate
